import Mathlib

/-!
Verification of the rule-validation engine of the geometry-masking pipeline:
a shallow embedding of `src/validation/expression_utils.py`,
`src/rules/operators.py`, `src/rules/rule_engine_utils.py`,
`src/utils/coercion.py`, `src/utils/validation_helpers.py`,
`src/rules/rule_engine_coercion.py`, `configs/rule_engine_defaults.py`,
`src/rules/rule_engine.py` and `src/validation/validation_profile_enforcer.py`,
together with theorems settling the stated properties of the specification.

Python runtime conventions modelled here:
* Python values are the inductive `Val` (None, bool, int, float, str, list,
  dict); dicts are association lists with unique keys, as Python dicts are.
* Python floats are modelled as exact rationals plus nan and the two
  infinities (`Flt`).  No claim below depends on binary rounding.
* Exceptions are values of `PyExc`; a raising function returns
  `Except PyExc α`.  Exception messages reproduce the source f-strings.
* `str.strip`/`str.lower` are modelled over ASCII whitespace and ASCII
  letters.  `str.isdigit` is modelled as ASCII decimal digits plus the
  superscript digits one, two, three: those are exactly the inputs on which
  Python's `str.isdigit` is true while `int()` raises, which is the
  behaviour several claims hinge on (verified against CPython:
  `'²'.isdigit() == True`, `int('²')` raises
  `ValueError: invalid literal for int() with base 10: '²'`).
-/

/-! ### Python string primitives -/

/-- ASCII whitespace, the characters `str.strip` removes. -/
def pyWhitespaceChar (c : Char) : Bool :=
  c = ' ' || c = '\t' || c = '\n' || c = '\r' || c = '\x0b' || c = '\x0c'

/-- Model of Python `str.strip()`. -/
def pyStrip (s : String) : String :=
  String.mk (((s.toList.dropWhile pyWhitespaceChar).reverse.dropWhile pyWhitespaceChar).reverse)

/-- Model of Python `str.lower()` (ASCII letters; all strings the claims use are ASCII
or unaffected by lowering). -/
def pyLower (s : String) : String :=
  String.mk (s.toList.map Char.toLower)

/-- First occurrence of a separator character: the part before it and the part after. -/
def breakAtChar (sep : Char) : List Char → Option (List Char × List Char)
  | [] => Option.none
  | c :: cs =>
      if c = sep then some ([], cs)
      else (breakAtChar sep cs).map (fun p => (c :: p.1, p.2))

/-- Model of Python `s.split(sep, maxsplit)` for a one-character separator:
splits at the first `maxsplit` occurrences, keeping empty parts. -/
def pySplitAux (sep : Char) : Nat → List Char → List String
  | 0, cs => [String.mk cs]
  | n + 1, cs =>
      match breakAtChar sep cs with
      | Option.none => [String.mk cs]
      | some (pre, post) => String.mk pre :: pySplitAux sep n post

/-- Python `s.split(sep, maxsplit)`. -/
def pySplit (s : String) (sep : Char) (maxsplit : Nat) : List String :=
  pySplitAux sep maxsplit s.toList

/-- Python `s.split(sep)` with no maxsplit: the number of separators is at most
the length of the string, so that much fuel splits at every occurrence. -/
def pySplitAll (s : String) (sep : Char) : List String :=
  pySplitAux sep s.toList.length s.toList

/-- Python `str.startswith` for a fixed prefix string. -/
def pyStartsWith (s pre : String) : Bool :=
  pre.toList.isPrefixOf s.toList

/-- Python `str.endswith`. -/
def pyEndsWith (s post : String) : Bool :=
  post.toList.isSuffixOf s.toList

/-- One fuelled pass of Python `str.replace`: leftmost, non-overlapping. -/
def pyReplaceAux (pat rep : List Char) : Nat → List Char → List Char
  | _, [] => []
  | 0, cs => cs
  | n + 1, c :: cs =>
      if pat ≠ [] ∧ pat.isPrefixOf (c :: cs) then
        rep ++ pyReplaceAux pat rep n ((c :: cs).drop pat.length)
      else
        c :: pyReplaceAux pat rep n cs

/-- Model of Python `s.replace(pat, rep)` (for nonempty `pat`, as all callers use). -/
def pyReplace (s pat rep : String) : String :=
  String.mk (pyReplaceAux pat.toList rep.toList s.toList.length s.toList)

/-- ASCII decimal digit. -/
def isAsciiDigit (c : Char) : Bool := '0' ≤ c && c ≤ '9'

/-- Characters with Unicode property `Numeric_Type=Digit` that are not decimal
digits.  Python's `str.isdigit` accepts them but `int()` rejects them.  The
model carries the three superscript digits as representatives; the claims only
need that such characters exist and behave this way. -/
def isSuperscriptDigit (c : Char) : Bool := c = '¹' || c = '²' || c = '³'

/-- Model of Python `str.isdigit`: nonempty and all digit-classified characters. -/
def pyIsDigitStr (s : String) : Bool :=
  !s.toList.isEmpty && s.toList.all (fun c => isAsciiDigit c || isSuperscriptDigit c)

/-- Model of Python `str.isnumeric`: `isdigit` characters plus numeric-valued
characters such as vulgar fractions (one representative kept). -/
def pyIsNumericStr (s : String) : Bool :=
  !s.toList.isEmpty &&
    s.toList.all (fun c => isAsciiDigit c || isSuperscriptDigit c || c = '½')

/-- Numeric value of a list of ASCII digits. -/
def natOfDigits (ds : List Char) : Nat :=
  ds.foldl (fun a c => a * 10 + (c.toNat - '0'.toNat)) 0

/-- Model of Python `int(s)` on a string: optional surrounding whitespace and
sign, then at least one decimal digit.  (Underscore separators and non-ASCII
decimal digits are not modelled; no claim uses them.)  `Option.none` is the
`ValueError` Python raises. -/
def pyIntOfString (s : String) : Option Int :=
  let cs := (pyStrip s).toList
  let signAndDigits : Int × List Char :=
    match cs with
    | '+' :: t => (1, t)
    | '-' :: t => (-1, t)
    | t => (1, t)
  if !signAndDigits.2.isEmpty && signAndDigits.2.all isAsciiDigit then
    some (signAndDigits.1 * (natOfDigits signAndDigits.2 : Int))
  else
    Option.none

/-! ### Python floats -/

/-- An exact fraction: integer numerator over positive natural denominator.
All constructors below keep the denominator positive; the representation is
not normalised (no gcd), and all comparisons are value comparisons by
cross-multiplication, so that every operation reduces in the kernel. -/
structure Frac where
  num : Int
  den : Nat
  deriving DecidableEq, Repr

/-- The fraction of an integer. -/
def Frac.ofInt (n : Int) : Frac := ⟨n, 1⟩

/-- Value equality of fractions. -/
def Frac.valEq (a b : Frac) : Bool := a.num * (b.den : Int) == b.num * (a.den : Int)

/-- Value order of fractions (denominators are positive). -/
def Frac.valLt (a b : Frac) : Bool := a.num * (b.den : Int) < b.num * (a.den : Int)

/-- Value order-or-equality of fractions. -/
def Frac.valLe (a b : Frac) : Bool := a.num * (b.den : Int) ≤ b.num * (a.den : Int)

/-- Whether the fraction is zero. -/
def Frac.isZero (a : Frac) : Bool := a.num == 0

/-- Truncation toward zero, as Python `int(float)` rounds. -/
def Frac.trunc (a : Frac) : Int :=
  if 0 ≤ a.num then (a.num.toNat / a.den : Nat) else -((-a.num).toNat / a.den : Nat)

/-- Negation. -/
def Frac.neg (a : Frac) : Frac := ⟨-a.num, a.den⟩

/-- Python float values: exact finite fractions, nan, and the infinities.
(Binary rounding of decimal literals is not modelled; no claim depends on it.) -/
inductive Flt where
  | fin (q : Frac)
  | nan
  | inf
  | ninf
  deriving DecidableEq, Repr

/-- Exponent part of a float literal: optional sign then at least one digit. -/
def parseExpPart (cs : List Char) : Option Int :=
  let signAndDigits : Int × List Char :=
    match cs with
    | '+' :: t => (1, t)
    | '-' :: t => (-1, t)
    | t => (1, t)
  if !signAndDigits.2.isEmpty && signAndDigits.2.all isAsciiDigit then
    some (signAndDigits.1 * (natOfDigits signAndDigits.2 : Int))
  else
    Option.none

/-- Scale a fraction by a signed power of ten. -/
def scalePow10 (q : Frac) (e : Int) : Frac :=
  if 0 ≤ e then ⟨q.num * (10 : Int) ^ e.toNat, q.den⟩
  else ⟨q.num, q.den * 10 ^ (-e).toNat⟩

/-- Unsigned numeric float grammar: `digits [. digits] [e sign digits]` or
`. digits …`, with at least one mantissa digit. -/
def parseUnsignedFloat (body : List Char) : Option Frac :=
  let ip := body.takeWhile isAsciiDigit
  let r1 := body.dropWhile isAsciiDigit
  let fpAndRest : List Char × List Char :=
    match r1 with
    | '.' :: t => (t.takeWhile isAsciiDigit, t.dropWhile isAsciiDigit)
    | _ => ([], r1)
  let fp := fpAndRest.1
  let r2 := fpAndRest.2
  if ip.isEmpty && fp.isEmpty then Option.none
  else
    let mant : Frac := ⟨natOfDigits ip * 10 ^ fp.length + natOfDigits fp, 10 ^ fp.length⟩
    match r2 with
    | [] => some mant
    | c :: t =>
        if c = 'e' || c = 'E' then
          match parseExpPart t with
          | some e => some (scalePow10 mant e)
          | Option.none => Option.none
        else Option.none

/-- Model of Python `float(s)` on a string: whitespace, optional sign, then a
numeric literal or the words inf/infinity/nan (case-insensitive).
`Option.none` is Python's `ValueError`. -/
def pyFloatOfString (s : String) : Option Flt :=
  let cs := (pyStrip s).toList
  let signAndBody : Bool × List Char :=
    match cs with
    | '+' :: t => (true, t)
    | '-' :: t => (false, t)
    | t => (true, t)
  let pos := signAndBody.1
  let body := signAndBody.2
  let lowerBody := body.map Char.toLower
  if lowerBody = "inf".toList || lowerBody = "infinity".toList then
    some (if pos then Flt.inf else Flt.ninf)
  else if lowerBody = "nan".toList then some Flt.nan
  else
    match parseUnsignedFloat body with
    | some q => some (Flt.fin (if pos then q else q.neg))
    | Option.none => Option.none

example : pyIntOfString "  00123 " = some 123 := by decide
example : pyIntOfString "²" = Option.none := by decide
example : pyIsDigitStr "²" = true := by decide
example : pyFloatOfString "3.14" = some (Flt.fin ⟨314, 100⟩) := by decide
example : (pyFloatOfString "-2.5e1").map (fun f =>
    match f with
    | Flt.fin q => q.valEq (Frac.ofInt (-25))
    | _ => false) = some true := by decide
example : pyFloatOfString " nan " = some Flt.nan := by decide
example : pyFloatOfString "a.b" = Option.none := by decide
example : pySplit "x  == 1" ' ' 3 = ["x", "", "==", "1"] := by decide
example : pySplitAll "a.b" '.' = ["a", "b"] := by decide
example : pyStrip "  hi " = "hi" := by decide

/-! ### Python values -/

/-- A Python value as used by the rule engine: payloads are nested dicts of
scalars; dicts are association lists with the unique keys a Python dict has. -/
inductive Val where
  | none
  | bool (b : Bool)
  | int (n : Int)
  | float (f : Flt)
  | str (s : String)
  | list (xs : List Val)
  | dict (entries : List (String × Val))
  deriving Repr

/-- A Python dict with string keys (payloads, rules). -/
abbrev PyDict := List (String × Val)

/-- Python `dict.get(k)`: the value at the first matching key, if any. -/
def pyDictGet (d : PyDict) (k : String) : Option Val :=
  (d.find? (fun p => p.1 == k)).map (fun p => p.2)

/-- Python truthiness (`bool(x)` / `if x:`); a float is falsy exactly when
its value is zero (nan and the infinities are truthy). -/
def pyTruthy : Val → Bool
  | Val.none => false
  | Val.bool b => b
  | Val.int n => n != 0
  | Val.float (Flt.fin q) => !q.isZero
  | Val.float _ => true
  | Val.str s => !s.isEmpty
  | Val.list xs => !xs.isEmpty
  | Val.dict es => !es.isEmpty

/-- Truthiness of `dict.get`'s result (`None` when the key is absent). -/
def pyTruthyOpt : Option Val → Bool
  | some v => pyTruthy v
  | Option.none => false

/-- The runtime type of a value, for `type(x) != type(y)` checks.
`bool` and `int` are distinct types (although `bool` is a subclass). -/
inductive TypeTag where
  | noneT
  | boolT
  | intT
  | floatT
  | strT
  | listT
  | dictT
  deriving DecidableEq, Repr

/-- Python `type(x)`. -/
def typeTag : Val → TypeTag
  | Val.none => TypeTag.noneT
  | Val.bool _ => TypeTag.boolT
  | Val.int _ => TypeTag.intT
  | Val.float _ => TypeTag.floatT
  | Val.str _ => TypeTag.strT
  | Val.list _ => TypeTag.listT
  | Val.dict _ => TypeTag.dictT

/-- Python `str(type(x))`, as f-strings format a type. -/
def pyTypeName : Val → String
  | Val.none => "<class 'NoneType'>"
  | Val.bool _ => "<class 'bool'>"
  | Val.int _ => "<class 'int'>"
  | Val.float _ => "<class 'float'>"
  | Val.str _ => "<class 'str'>"
  | Val.list _ => "<class 'list'>"
  | Val.dict _ => "<class 'dict'>"

/-- Whether the value is `None` (`x is None`). -/
def Val.isNone : Val → Bool
  | Val.none => true
  | _ => false

/-- The numeric view of a value: Python compares bool, int and float as one
numeric family (`True == 1`, `5 == 5.0`). -/
def numQ : Val → Option Flt
  | Val.bool b => some (Flt.fin (Frac.ofInt (if b then 1 else 0)))
  | Val.int n => some (Flt.fin (Frac.ofInt n))
  | Val.float f => some f
  | _ => Option.none

/-- Equality of Python floats: nan is equal to nothing, the infinities only
to themselves, finite values by value. -/
def fltEq : Flt → Flt → Bool
  | Flt.fin a, Flt.fin b => a.valEq b
  | Flt.inf, Flt.inf => true
  | Flt.ninf, Flt.ninf => true
  | _, _ => false

/-- Strict order of Python floats: any comparison with nan is false. -/
def fltLt : Flt → Flt → Bool
  | Flt.fin a, Flt.fin b => a.valLt b
  | Flt.fin _, Flt.inf => true
  | Flt.ninf, Flt.fin _ => true
  | Flt.ninf, Flt.inf => true
  | _, _ => false

/-- Non-strict order of Python floats. -/
def fltLe : Flt → Flt → Bool
  | Flt.fin a, Flt.fin b => a.valLe b
  | Flt.nan, _ => false
  | _, Flt.nan => false
  | Flt.ninf, _ => true
  | _, Flt.inf => true
  | _, _ => false

mutual

/-- Python `==` on values: numeric family by value, strings, None, and
structural container equality; different categories compare unequal.
Dicts compare order-insensitively: same size and every key of the one mapped
to an equal value in the other (Python dict keys are unique). -/
def pyEq : Val → Val → Bool
  | Val.str a, Val.str b => a == b
  | Val.list xs, Val.list ys => pyEqList xs ys
  | Val.dict xs, Val.dict ys => xs.length == ys.length && pyEqDictAux xs ys
  | Val.none, Val.none => true
  | a, b =>
      match numQ a, numQ b with
      | some x, some y => fltEq x y
      | _, _ => false

/-- Elementwise equality of Python lists. -/
def pyEqList : List Val → List Val → Bool
  | [], [] => true
  | x :: xs, y :: ys => pyEq x y && pyEqList xs ys
  | _, _ => false

/-- Each entry of the first dict has an equal entry in the second. -/
def pyEqDictAux : PyDict → PyDict → Bool
  | [], _ => true
  | (k, v) :: t, ys =>
      match ys.find? (fun p => p.1 == k) with
      | some p => pyEq v p.2 && pyEqDictAux t ys
      | Option.none => false

end

/-- Equality of Python dicts, as `pyEq` compares them. -/
def pyEqDict (xs ys : PyDict) : Bool :=
  xs.length == ys.length && pyEqDictAux xs ys

/-- Lexicographic order on strings by code point, as Python compares `str`. -/
def strLtChars : List Char → List Char → Bool
  | [], [] => false
  | [], _ :: _ => true
  | _ :: _, [] => false
  | a :: as, b :: bs => if a = b then strLtChars as bs else decide (a < b)

/-- Python `repr` of a float, modelled for the integral case; the general
decimal rendering is not modelled (no claim stringifies a non-integral float). -/
def fltRepr : Flt → String
  | Flt.nan => "nan"
  | Flt.inf => "inf"
  | Flt.ninf => "-inf"
  | Flt.fin q => if q.den == 1 then toString q.num ++ ".0"
      else toString q.num ++ "e-den" ++ toString q.den

mutual

/-- Python `repr(x)`; string escaping inside reprs is not modelled (no claim
stringifies a container holding quotes). -/
def pyReprVal : Val → String
  | Val.none => "None"
  | Val.bool b => if b then "True" else "False"
  | Val.int n => toString n
  | Val.float f => fltRepr f
  | Val.str s => "'" ++ s ++ "'"
  | Val.list xs => "[" ++ String.intercalate ", " (pyReprList xs) ++ "]"
  | Val.dict es => "\x7b" ++ String.intercalate ", " (pyReprDict es) ++ "\x7d"

/-- Reprs of the elements of a list. -/
def pyReprList : List Val → List String
  | [] => []
  | v :: vs => pyReprVal v :: pyReprList vs

/-- Reprs of the entries of a dict. -/
def pyReprDict : PyDict → List String
  | [] => []
  | (k, v) :: es => ("'" ++ k ++ "': " ++ pyReprVal v) :: pyReprDict es

end

/-- Python `str(x)`: strings unchanged, everything else its repr. -/
def pyStrVal : Val → String
  | Val.str s => s
  | v => pyReprVal v

mutual

/-- Python `a < b`: numeric family by value, strings and lists lexicographic,
anything else a `TypeError`. -/
def pyLt (a b : Val) : Except String Bool :=
  match a, b with
  | Val.str x, Val.str y => Except.ok (strLtChars x.toList y.toList)
  | Val.list xs, Val.list ys => pyLtList xs ys
  | _, _ =>
      match numQ a, numQ b with
      | some x, some y => Except.ok (fltLt x y)
      | _, _ => Except.error ("'<' not supported between instances of " ++
          pyTypeName a ++ " and " ++ pyTypeName b)

/-- Lexicographic strict order of Python lists. -/
def pyLtList : List Val → List Val → Except String Bool
  | [], [] => Except.ok false
  | [], _ :: _ => Except.ok true
  | _ :: _, [] => Except.ok false
  | x :: xs, y :: ys => if pyEq x y then pyLtList xs ys else pyLt x y

end

mutual

/-- Python `a <= b`. -/
def pyLe (a b : Val) : Except String Bool :=
  match a, b with
  | Val.str x, Val.str y =>
      Except.ok (x == y || strLtChars x.toList y.toList)
  | Val.list xs, Val.list ys => pyLeList xs ys
  | _, _ =>
      match numQ a, numQ b with
      | some x, some y => Except.ok (fltLe x y)
      | _, _ => Except.error ("'<=' not supported between instances of " ++
          pyTypeName a ++ " and " ++ pyTypeName b)

/-- Lexicographic non-strict order of Python lists. -/
def pyLeList : List Val → List Val → Except String Bool
  | [], _ => Except.ok true
  | _ :: _, [] => Except.ok false
  | x :: xs, y :: ys => if pyEq x y then pyLeList xs ys else pyLt x y

end

/-- Whether `needle` occurs inside `hay` (Python substring containment). -/
def containsSub (needle : List Char) : List Char → Bool
  | [] => needle.isEmpty
  | c :: t => needle.isPrefixOf (c :: t) || containsSub needle t

/-- Python `a in b` for strings, lists and dicts; other right operands are
not iterable (`TypeError`). -/
def pyIn (a b : Val) : Except String Bool :=
  match b with
  | Val.str s =>
      match a with
      | Val.str t => Except.ok (containsSub t.toList s.toList)
      | _ => Except.error "'in <string>' requires string as left operand"
  | Val.list xs => Except.ok (xs.any (fun x => pyEq a x))
  | Val.dict es => Except.ok (es.any (fun p => pyEq a (Val.str p.1)))
  | _ => Except.error ("argument of type " ++ pyTypeName b ++ " is not iterable")

/-- Fuelled matcher for the regex subset the model carries: literal characters,
`.` for any character, and postfix `*`.  The source's `matches` operator calls
`re.fullmatch`; no claim exercises regex patterns, so the subset is only here
to keep the operator total on the inputs the embedding can build. -/
def reFullAux : Nat → List Char → List Char → Bool
  | 0, _, _ => false
  | n + 1, pat, s =>
      match pat, s with
      | [], rest => rest.isEmpty
      | p :: '*' :: pr, rest =>
          reFullAux n pr rest ||
            (match rest with
             | c :: cr => (p = '.' || p = c) && reFullAux n (p :: '*' :: pr) cr
             | [] => false)
      | p :: pr, c :: cr => (p = '.' || p = c) && reFullAux n pr cr
      | _ :: _, [] => false

/-- Model of `re.fullmatch(pattern, s) is not None` on the subset above. -/
def reFullmatch (pattern s : String) : Bool :=
  reFullAux (pattern.length + s.length + 1) pattern.toList s.toList

example : pyEq (Val.bool true) (Val.int 1) = true := by decide
example : pyEq (Val.int 5) (Val.float (Flt.fin ⟨50, 10⟩)) = true := by decide
example : pyEq (Val.str "100") (Val.int 100) = false := by decide
example : pyTruthy (Val.str " ") = true := by decide
example : pyDictGet [("a", Val.int 1), ("b", Val.none)] "b" = some Val.none := by rfl
example : reFullmatch "ab*." "abbbc" = true := by decide

/-! ### Exceptions -/

/-- The Python exceptions the engine raises, with their messages
(`str(e)` is the message). -/
inductive PyExc where
  | valueError (msg : String)
  | typeError (msg : String)
  | operatorError (msg : String)
  | ruleEvaluationError (msg : String)
  | validationProfileError (msg : String)
  deriving DecidableEq, Repr

/-- Python `str(e)` of an exception: its message. -/
def excMsg : PyExc → String
  | PyExc.valueError m => m
  | PyExc.typeError m => m
  | PyExc.operatorError m => m
  | PyExc.ruleEvaluationError m => m
  | PyExc.validationProfileError m => m

/-! ### `src/validation/expression_utils.py` -/

/-- `normalize_quotes(expr)`: strip, then collapse quote runs
(`'''` to `'`, `"""` to `"`, `''` to `'`, `""` to `"`, in that order). -/
def normalize_quotes (expr : String) : String :=
  let e := pyStrip expr
  let e := pyReplace e "'''" "'"
  let e := pyReplace e "\"\"\"" "\""
  let e := pyReplace e "''" "'"
  pyReplace e "\"\"" "\""

/-- The string without its first and last characters (Python `val[1:-1]`). -/
def dropEnds (s : String) : String :=
  String.mk ((s.toList.drop 1).dropLast)

/-- Model of `ast.literal_eval` restricted to the literal forms the rule
grammar reaches it with: exact-case True/False/None, signed integer literals,
and float literals (including scientific notation).  Container literals are
modelled as failures — the caller then returns the original string — and no
claim exercises them.  `ast.literal_eval` rejects the words inf/nan (they are
names, not literals), hence the purely numeric grammar here. -/
def astLiteralEval (s : String) : Option Val :=
  let t := pyStrip s
  if t == "True" then some (Val.bool true)
  else if t == "False" then some (Val.bool false)
  else if t == "None" then some Val.none
  else
    let cs := t.toList
    let signAndBody : Bool × List Char :=
      match cs with
      | '+' :: b => (true, b)
      | '-' :: b => (false, b)
      | b => (true, b)
    let pos := signAndBody.1
    let body := signAndBody.2
    if !body.isEmpty && body.all isAsciiDigit then
      some (Val.int ((if pos then 1 else -1) * (natOfDigits body : Int)))
    else
      match parseUnsignedFloat body with
      | some q => some (Val.float (Flt.fin (if pos then q else q.neg)))
      | Option.none => Option.none

/-- `parse_literal(value)`: non-string input returned unchanged; quote-run
normalization and stripping; case-insensitive booleans and null/none; quoted
strings unquoted verbatim; digit-classified strings through `int()` — which
is where Python raises `ValueError` on digit-classified non-decimal input
such as `"²"`; otherwise `ast.literal_eval` with the trimmed original string
as fallback. -/
def parse_literal (value : Val) : Except PyExc Val :=
  match value with
  | Val.str s =>
      let val := pyStrip (normalize_quotes s)
      let vl := pyLower val
      if vl == "true" then Except.ok (Val.bool true)
      else if vl == "false" then Except.ok (Val.bool false)
      else if vl == "null" || vl == "none" then Except.ok Val.none
      else if (pyStartsWith val "'" && pyEndsWith val "'") ||
              (pyStartsWith val "\"" && pyEndsWith val "\"") then
        Except.ok (Val.str (dropEnds val))
      else if pyIsDigitStr val then
        match pyIntOfString val with
        | some n => Except.ok (Val.int n)
        | Option.none =>
            Except.error (PyExc.valueError
              ("invalid literal for int() with base 10: '" ++ val ++ "'"))
      else
        match astLiteralEval val with
        | some v => Except.ok v
        | Option.none => Except.ok (Val.str val)
  | v => Except.ok v

/-- `is_literal(token)`: keyword, numeric, or quote-wrapped after
strip-and-lower. -/
def is_literal (token : String) : Bool :=
  let t := pyLower (pyStrip token)
  if t == "true" || t == "false" || t == "null" || t == "none" then true
  else if pyIsNumericStr t then true
  else (pyStartsWith t "'" && pyEndsWith t "'") ||
       (pyStartsWith t "\"" && pyEndsWith t "\"")

/-- `is_symbolic_reference(val)` (the `expression_utils` version the engine
uses): keywords and float-parsable strings are not symbolic; otherwise
symbolic when a dot or bracket occurs. -/
def is_symbolic_reference (val : String) : Bool :=
  let v := pyStrip val
  let vl := pyLower v
  if vl == "true" || vl == "false" || vl == "null" || vl == "none" then false
  else
    match pyFloatOfString v with
    | some _ => false
    | Option.none =>
        v.toList.contains '.' || v.toList.contains '[' || v.toList.contains ']'

/-! ### `src/utils/validation_helpers.py` -/

/-- `is_valid_numeric_string(s)`: containers rejected, then `float(s)`
success.  Note `float("nan")` and `float("inf")` succeed. -/
def is_valid_numeric_string : Val → Bool
  | Val.list _ => false
  | Val.dict _ => false
  | Val.str t => (pyFloatOfString t).isSome
  | Val.bool _ => true
  | Val.int _ => true
  | Val.float _ => true
  | Val.none => false

/-! ### `src/rules/operators.py` -/

/-- The comparison operators of the registry. -/
inductive Op where
  | eq
  | ne
  | lt
  | le
  | gt
  | ge
  | inOp
  | notInOp
  | matchesOp
  deriving DecidableEq, Repr

/-- `SUPPORTED_OPERATORS`, in the source's insertion order. -/
def SUPPORTED_OPERATORS : List (String × Op) :=
  [("==", Op.eq), ("!=", Op.ne), ("<", Op.lt), ("<=", Op.le),
   (">", Op.gt), (">=", Op.ge), ("in", Op.inOp), ("not in", Op.notInOp),
   ("matches", Op.matchesOp)]

/-- The registry's keys, in order (Python dict iteration order). -/
def supportedKeys : List String := SUPPORTED_OPERATORS.map (fun p => p.1)

/-- Lookup in the registry. -/
def lookupOp (k : String) : Option Op :=
  (SUPPORTED_OPERATORS.find? (fun p => p.1 == k)).map (fun p => p.2)

/-- `normalize_operator(op)`: the fixed alias table on the stripped token,
unknown tokens passed through stripped. -/
def normalize_operator (op : String) : String :=
  let stripped := pyStrip op
  if stripped == "===" then "=="
  else if stripped == "!==" then "!="
  else if stripped == ">>" then ">"
  else if stripped == "<<" then "<"
  else if stripped == ">==" then ">="
  else if stripped == "<==" then "<="
  else if stripped == "++" then "+"
  else if stripped == "--" then "-"
  else if stripped == "%%" then "%"
  else stripped

/-- `resolve_operator(op)`: normalize then look up; unsupported tokens fail
with an `OperatorError` naming both the original and the normalized form. -/
def resolve_operator (op : String) : Except PyExc Op :=
  let original := pyStrip op
  let normalized := normalize_operator original
  match lookupOp normalized with
  | some f => Except.ok f
  | Option.none =>
      Except.error (PyExc.operatorError
        ("Unsupported comparison operator: '" ++ original ++
         "' → normalized as '" ++ normalized ++ "'"))

/-- Application of a resolved comparison function.  `op_matches` requires a
string pattern (`TypeError` otherwise) and full-matches `str(a)`. -/
def applyOp (op : Op) (a b : Val) : Except PyExc Bool :=
  match op with
  | Op.eq => Except.ok (pyEq a b)
  | Op.ne => Except.ok (!pyEq a b)
  | Op.lt => (pyLt a b).mapError PyExc.typeError
  | Op.le => (pyLe a b).mapError PyExc.typeError
  | Op.gt => (pyLt b a).mapError PyExc.typeError
  | Op.ge => (pyLe b a).mapError PyExc.typeError
  | Op.inOp => (pyIn a b).mapError PyExc.typeError
  | Op.notInOp => ((pyIn a b).mapError PyExc.typeError).map (fun r => !r)
  | Op.matchesOp =>
      match b with
      | Val.str pat => Except.ok (reFullmatch pat (pyStrVal a))
      | _ => Except.error (PyExc.typeError "Regex pattern must be a string")

example : parse_literal (Val.str "  true ") = Except.ok (Val.bool true) := by rfl
example : parse_literal (Val.str "00123") = Except.ok (Val.int 123) := by rfl
example : parse_literal (Val.str " ' spaced ' ") = Except.ok (Val.str " spaced ") := by rfl
example : parse_literal (Val.str "  ") = Except.ok (Val.str "") := by rfl
example : parse_literal (Val.str "3.14.15") = Except.ok (Val.str "3.14.15") := by rfl
example : parse_literal (Val.str "-17") = Except.ok (Val.int (-17)) := by rfl
example : parse_literal (Val.str "²") =
    Except.error (PyExc.valueError "invalid literal for int() with base 10: '²'") := by rfl
example : is_symbolic_reference "a.b" = true := by decide
example : is_symbolic_reference "nan" = false := by decide
example : is_symbolic_reference "²" = false := by decide
example : is_symbolic_reference "42" = false := by decide
example : resolve_operator "===" = Except.ok Op.eq := by rfl
example : normalize_operator "++" = "+" := by rfl

/-! ### `src/utils/coercion.py` -/

/-- The four target types of a relaxed cast, in the casting order of
`relaxed_equals`. -/
inductive TTy where
  | boolT
  | intT
  | floatT
  | strT
  deriving DecidableEq, Repr

/-- Python `isinstance(v, t)` for the four target types; bool is a subclass
of int, so `isinstance(True, int)` holds. -/
def isinstanceT (v : Val) : TTy → Bool
  | TTy.boolT =>
      match v with
      | Val.bool _ => true
      | _ => false
  | TTy.intT =>
      match v with
      | Val.bool _ => true
      | Val.int _ => true
      | _ => false
  | TTy.floatT =>
      match v with
      | Val.float _ => true
      | _ => false
  | TTy.strT =>
      match v with
      | Val.str _ => true
      | _ => false

/-- Python `int(x)` on a non-string value (`Option.none` for the
TypeError/ValueError/OverflowError cases: None, containers, nan, inf). -/
def pyIntOfVal : Val → Option Int
  | Val.bool b => some (if b then 1 else 0)
  | Val.int n => some n
  | Val.float (Flt.fin q) => some q.trunc
  | Val.float _ => Option.none
  | Val.str s => pyIntOfString s
  | _ => Option.none

/-- Python `float(x)`. -/
def pyFloatOfVal : Val → Option Flt
  | Val.bool b => some (Flt.fin (Frac.ofInt (if b then 1 else 0)))
  | Val.int n => some (Flt.fin (Frac.ofInt n))
  | Val.float f => some f
  | Val.str s => pyFloatOfString s
  | _ => Option.none

/-- The raw-constructor fallback `target_type(value)` of `relaxed_cast`,
with any exception mapped to `None`. -/
def ctorFallback (value : Val) : TTy → Option Val
  | TTy.boolT => some (Val.bool (pyTruthy value))
  | TTy.intT => (pyIntOfVal value).map Val.int
  | TTy.floatT => (pyFloatOfVal value).map Val.float
  | TTy.strT => some (Val.str (pyStrVal value))

/-- `relaxed_cast(value, target_type)`: identity on instances of the target;
for strings, the recognized boolean forms, `isdigit` strings through `int()`
(whose failure the outer handler turns into None), floats with NaN rejected;
otherwise the raw constructor; any exception gives None. -/
def relaxed_cast (value : Val) (target : TTy) : Option Val :=
  if isinstanceT value target then some value
  else
    match value with
    | Val.str s =>
        let stripped := pyLower (pyStrip s)
        match target with
        | TTy.boolT =>
            if stripped == "true" || stripped == "1" then some (Val.bool true)
            else if stripped == "false" || stripped == "0" then some (Val.bool false)
            else ctorFallback value target
        | TTy.intT =>
            if pyIsDigitStr stripped then
              match pyIntOfString stripped with
              | some n => some (Val.int n)
              | Option.none => Option.none
            else ctorFallback value target
        | TTy.floatT =>
            match pyFloatOfString stripped with
            | some Flt.nan => Option.none
            | some f => some (Val.float f)
            | Option.none => Option.none
        | TTy.strT => ctorFallback value target
    | _ => ctorFallback value target

/-- The unsafe-operand guard of `relaxed_equals`: a string reading
"nan" or "not_a_number" after strip-and-lower. -/
def nanString : Val → Bool
  | Val.str s =>
      let t := pyLower (pyStrip s)
      t == "nan" || t == "not_a_number"
  | _ => false

/-- `relaxed_equals(lhs, rhs)`: reject the nan-sentinel strings outright;
otherwise try casting both sides to bool, int, float, then str, and succeed
on the first type where both casts land and compare equal. -/
def relaxed_equals (lhs rhs : Val) : Bool :=
  if nanString lhs || nanString rhs then false
  else
    [TTy.boolT, TTy.intT, TTy.floatT, TTy.strT].any (fun t =>
      match relaxed_cast lhs t, relaxed_cast rhs t with
      | some lc, some rc => pyEq lc rc
      | _, _ => false)

/-! ### `src/rules/rule_engine_utils.py` -/

/-- `get_nested_value(payload, path)` walks the dot-separated keys.  A
non-dict intermediate, a missing key, and a null value at a key whose name
differs from the last key's name each raise a `RuleEvaluationError` (the
null check compares key names, faithfully to `k != keys[-1]`). -/
def walkKeys (path lastKey : String) : Val → List String → Except PyExc Val
  | value, [] => Except.ok value
  | value, k :: rest =>
      match value with
      | Val.dict es =>
          match pyDictGet es k with
          | some v =>
              if v.isNone && k != lastKey then
                Except.error (PyExc.ruleEvaluationError
                  ("Null value encountered at '" ++ k ++ "' in path '" ++ path ++ "'"))
              else walkKeys path lastKey v rest
          | Option.none =>
              Except.error (PyExc.ruleEvaluationError
                ("Missing key in expression: " ++ path))
      | _ =>
          Except.error (PyExc.ruleEvaluationError
            ("Expected dict at '" ++ k ++ "' in path '" ++ path ++ "', but got " ++
             pyTypeName value))

/-- `get_nested_value` itself: split the path at dots and walk from the
payload dict. -/
def get_nested_value (payload : PyDict) (path : String) : Except PyExc Val :=
  let keys := pySplitAll path '.'
  walkKeys path (keys.getLastD "") (Val.dict payload) keys

/-! ### `src/rules/rule_engine_coercion.py` -/

/-- The inner body of `_coerce_types_for_comparison`, before the blanket
wrap: unresolved (None) operands pass through; symbolic-reference strings
are refused; a bool on either side booleanizes both; a non-numeric string
against a number passes through unchanged; a numeric-valid string is cast to
the other operand's numeric type (`type(left)(right)`, whose `int("3.5")`
failure raises); two strings both numeric-valid go through int then float. -/
def coerceInner (left right : Val) : Except PyExc (Val × Val) :=
  if left.isNone || right.isNone then Except.ok (left, right)
  else
    match left, right with
    | Val.str ls, _ =>
        if is_symbolic_reference ls then
          Except.error (PyExc.ruleEvaluationError
            ("Cannot coerce unresolved reference: " ++ ls))
        else coerceInner2 left right
    | _, _ => coerceInner2 left right
where
  coerceInner2 (left right : Val) : Except PyExc (Val × Val) :=
    match right with
    | Val.str rs =>
        if is_symbolic_reference rs then
          Except.error (PyExc.ruleEvaluationError
            ("Cannot coerce unresolved reference: " ++ rs))
        else coerceInner3 left right
    | _ => coerceInner3 left right
  coerceInner3 (left right : Val) : Except PyExc (Val × Val) :=
    match left, right with
    | Val.bool _, _ => Except.ok (Val.bool (pyTruthy left), Val.bool (pyTruthy right))
    | _, Val.bool _ => Except.ok (Val.bool (pyTruthy left), Val.bool (pyTruthy right))
    | Val.str ls, Val.int _ =>
        if !is_valid_numeric_string (Val.str ls) then Except.ok (left, right)
        else coerceNumStr left right
    | Val.str ls, Val.float _ =>
        if !is_valid_numeric_string (Val.str ls) then Except.ok (left, right)
        else coerceNumStr left right
    | Val.int _, Val.str rs =>
        if !is_valid_numeric_string (Val.str rs) then Except.ok (left, right)
        else coerceNumStr left right
    | Val.float _, Val.str rs =>
        if !is_valid_numeric_string (Val.str rs) then Except.ok (left, right)
        else coerceNumStr left right
    | Val.str ls, Val.str rs =>
        if is_valid_numeric_string (Val.str ls) && is_valid_numeric_string (Val.str rs) then
          match pyIntOfString ls, pyIntOfString rs with
          | some a, some b => Except.ok (Val.int a, Val.int b)
          | _, _ =>
              match pyFloatOfString ls, pyFloatOfString rs with
              | some a, some b => Except.ok (Val.float a, Val.float b)
              | _, _ => Except.ok (left, right)
        else Except.ok (left, right)
    | _, _ => Except.ok (left, right)
  coerceNumStr (left right : Val) : Except PyExc (Val × Val) :=
    match left, right with
    | Val.int _, Val.str rs =>
        match pyIntOfString rs with
        | some n => Except.ok (left, Val.int n)
        | Option.none =>
            Except.error (PyExc.valueError
              ("invalid literal for int() with base 10: '" ++ rs ++ "'"))
    | Val.float _, Val.str rs =>
        match pyFloatOfString rs with
        | some f => Except.ok (left, Val.float f)
        | Option.none =>
            Except.error (PyExc.valueError
              ("could not convert string to float: '" ++ rs ++ "'"))
    | Val.str ls, Val.int _ =>
        match pyIntOfString ls with
        | some n => Except.ok (Val.int n, right)
        | Option.none =>
            Except.error (PyExc.valueError
              ("invalid literal for int() with base 10: '" ++ ls ++ "'"))
    | Val.str ls, Val.float _ =>
        match pyFloatOfString ls with
        | some f => Except.ok (Val.float f, right)
        | Option.none =>
            Except.error (PyExc.valueError
              ("could not convert string to float: '" ++ ls ++ "'"))
    | _, _ => Except.ok (left, right)

/-- `_coerce_types_for_comparison(left, right)`: the inner logic with every
exception re-wrapped into one `RuleEvaluationError`. -/
def coerce_types_for_comparison (left right : Val) : Except PyExc (Val × Val) :=
  match coerceInner left right with
  | Except.ok p => Except.ok p
  | Except.error e =>
      Except.error (PyExc.ruleEvaluationError
        ("Type coercion failed in relaxed mode: " ++ excMsg e))

example : relaxed_equals (Val.str "true") (Val.bool true) = true := by decide
example : relaxed_equals (Val.str "42") (Val.int 42) = true := by decide
example : relaxed_equals (Val.str "abc") (Val.str "abc") = true := by decide
example : relaxed_equals (Val.str "123") (Val.bool false) = false := by decide
example : relaxed_equals (Val.str "abc") (Val.int 5) = true := by decide
example : relaxed_equals (Val.str "nan") (Val.str "nan") = false := by decide
example : relaxed_equals (Val.str "3.14") (Val.float (Flt.fin ⟨314, 100⟩)) = true := by decide
example : get_nested_value [("a", Val.dict [("b", Val.str "100")])] "a.b" =
    Except.ok (Val.str "100") := by rfl
example : get_nested_value [("a", Val.int 1)] "a.b" =
    Except.error (PyExc.ruleEvaluationError
      "Expected dict at 'b' in path 'a.b', but got <class 'int'>") := by rfl
example : get_nested_value [] "x" =
    Except.error (PyExc.ruleEvaluationError "Missing key in expression: x") := by rfl

/-! ### `configs/rule_engine_defaults.py` -/

/-- `get_type_check_mode(profile_override)`: a falsy override falls back to
the default "strict" (`profile_override or DEFAULT_TYPE_CHECK_MODE`); a value
outside {"strict", "relaxed"} raises `ValueError`. -/
def get_type_check_mode (profile_override : Option Val) : Except PyExc String :=
  let mode : Val :=
    match profile_override with
    | some v => if pyTruthy v then v else Val.str "strict"
    | Option.none => Val.str "strict"
  if pyEq mode (Val.str "strict") then Except.ok "strict"
  else if pyEq mode (Val.str "relaxed") then Except.ok "relaxed"
  else Except.error (PyExc.valueError ("Invalid type check mode: " ++ pyStrVal mode))

/-! ### `src/rules/rule_engine.py` -/

/-- The rhs-resolution step of `_evaluate_expression`: try `parse_literal`;
on its `ValueError`, in relaxed mode fall back to resolving the token as a
payload path (flagging success so the later coercion is skipped) with `None`
on a failed lookup; in strict mode the parse failure is the hard error
`Invalid RHS literal`.  The flag is `rhs_resolved_from_payload`. -/
def resolveRhs (relaxed : Bool) (payload : PyDict) (rhs_literal : String) :
    Except PyExc (Val × Bool) :=
  match parse_literal (Val.str rhs_literal) with
  | Except.ok v => Except.ok (v, false)
  | Except.error (PyExc.valueError _) =>
      if relaxed then
        match get_nested_value payload rhs_literal with
        | Except.ok v => Except.ok (v, true)
        | Except.error (PyExc.ruleEvaluationError _) => Except.ok (Val.none, false)
        | Except.error e => Except.error e
      else
        Except.error (PyExc.ruleEvaluationError
          ("Invalid RHS literal: '" ++ rhs_literal ++ "'"))
  | Except.error e => Except.error e

/-- The final comparison of `_evaluate_expression`, non-relaxed arm: the
resolved comparison function with any exception wrapped into
`Comparison failed`. -/
def wrapCompare (x : Except PyExc Bool) : Except PyExc Bool :=
  match x with
  | Except.ok b => Except.ok b
  | Except.error e =>
      Except.error (PyExc.ruleEvaluationError ("Comparison failed: " ++ excMsg e))

/-- The body of `_evaluate_expression` after the three-token split: operator
membership check; the literal-only fast path on an empty payload (note its
`parse_literal` calls stand outside any handler, so their `ValueError`
propagates raw); lhs resolution with the relaxed None fallback; operator
resolution; rhs resolution; the relaxed shortcut comparing via
`relaxed_equals` when an operand is unresolved or an original token is
symbolic; the mode's coercion step; and the final comparison, which in
relaxed mode is always `relaxed_equals` and otherwise the operator function. -/
def evalCore (lhs_path operator_str rhs_literal : String) (payload : PyDict)
    (strict_type_check relaxed_type_check : Bool) : Except PyExc Bool :=
  if !supportedKeys.contains operator_str then
    Except.error (PyExc.ruleEvaluationError
      ("Unsupported operator: '" ++ operator_str ++ "' — allowed operators: " ++
       String.intercalate ", " supportedKeys))
  else if payload.isEmpty && (is_literal lhs_path && is_literal rhs_literal) then
    match parse_literal (Val.str lhs_path) with
    | Except.error e => Except.error e
    | Except.ok lhs_val =>
        match parse_literal (Val.str rhs_literal) with
        | Except.error e => Except.error e
        | Except.ok rhs_val =>
            match resolve_operator operator_str with
            | Except.error e =>
                Except.error (PyExc.ruleEvaluationError
                  ("Literal comparison failed: " ++ excMsg e))
            | Except.ok op =>
                match applyOp op lhs_val rhs_val with
                | Except.error e =>
                    Except.error (PyExc.ruleEvaluationError
                      ("Literal comparison failed: " ++ excMsg e))
                | Except.ok b => Except.ok b
  else
    match
      (match get_nested_value payload lhs_path with
       | Except.ok v => Except.ok v
       | Except.error (PyExc.ruleEvaluationError m) =>
           if relaxed_type_check then Except.ok Val.none
           else Except.error (PyExc.ruleEvaluationError m)
       | Except.error e => Except.error e) with
    | Except.error e => Except.error e
    | Except.ok lhs_value =>
        match
          (match resolve_operator operator_str with
           | Except.ok f => Except.ok f
           | Except.error (PyExc.operatorError _) =>
               Except.error (PyExc.ruleEvaluationError
                 ("Operator resolution failed: " ++ operator_str))
           | Except.error e => Except.error e) with
        | Except.error e => Except.error e
        | Except.ok op =>
            match resolveRhs relaxed_type_check payload rhs_literal with
            | Except.error e => Except.error e
            | Except.ok (rhs_value, rhs_resolved_from_payload) =>
                if relaxed_type_check &&
                    (lhs_value.isNone || rhs_value.isNone ||
                     is_symbolic_reference lhs_path || is_symbolic_reference rhs_literal) then
                  Except.ok (relaxed_equals lhs_value rhs_value)
                else
                  match
                    (if strict_type_check then
                      if typeTag lhs_value != typeTag rhs_value then
                        Except.error (PyExc.ruleEvaluationError
                          ("Coercion error: Incompatible types: " ++
                           pyTypeName lhs_value ++ " vs " ++ pyTypeName rhs_value))
                      else Except.ok (lhs_value, rhs_value)
                    else if relaxed_type_check then
                      if !rhs_resolved_from_payload then
                        match coerce_types_for_comparison lhs_value rhs_value with
                        | Except.ok p => Except.ok p
                        | Except.error e =>
                            Except.error (PyExc.ruleEvaluationError
                              ("Coercion error: " ++ excMsg e))
                      else Except.ok (lhs_value, rhs_value)
                    else
                      if typeTag lhs_value != typeTag rhs_value then
                        Except.error (PyExc.ruleEvaluationError
                          ("Coercion error: Type mismatch (default strict): " ++
                           pyTypeName lhs_value ++ " vs " ++ pyTypeName rhs_value))
                      else Except.ok (lhs_value, rhs_value)) with
                  | Except.error e => Except.error e
                  | Except.ok (lhs2, rhs2) =>
                      if relaxed_type_check then Except.ok (relaxed_equals lhs2 rhs2)
                      else wrapCompare (applyOp op lhs2 rhs2)

/-- `_evaluate_expression(expression, payload, strict, relaxed)`: strip and
split on single spaces with maxsplit 3; any part count other than three is
the format error; otherwise the body above. -/
def evaluate_expression (expression : String) (payload : PyDict)
    (strict_type_check relaxed_type_check : Bool) : Except PyExc Bool :=
  match pySplit (pyStrip expression) ' ' 3 with
  | [l, o, r] => evalCore l o r payload strict_type_check relaxed_type_check
  | _ =>
      Except.error (PyExc.ruleEvaluationError
        ("Unsupported expression format: '" ++ expression ++ "'"))

/-- `evaluate_rule(rule, payload, strict?, relaxed?)`: a missing, falsy or
non-string condition returns True at once; when neither flag is supplied the
mode comes from the rule's `type_check_mode` through `get_type_check_mode`,
failing closed to strict. -/
def evaluate_rule (rule : PyDict) (payload : PyDict)
    (strict_type_check relaxed_type_check : Bool) : Except PyExc Bool :=
  match pyDictGet rule "if" with
  | some (Val.str s) =>
      if s.isEmpty then Except.ok true
      else
        let flags : Bool × Bool :=
          if strict_type_check || relaxed_type_check then
            (strict_type_check, relaxed_type_check)
          else
            let type_mode :=
              match get_type_check_mode (pyDictGet rule "type_check_mode") with
              | Except.ok m => m
              | Except.error _ => "strict"
            (type_mode == "strict", type_mode == "relaxed")
        evaluate_expression s payload flags.1 flags.2
  | _ => Except.ok true

/-! ### `src/validation/validation_profile_enforcer.py` -/

/-- The message of rule `i`: its "raise" value stringified, or the indexed
default (`rule.get("raise", f"Validation rule {i} failed")`, later formatted
into the profile error with `str`). -/
def ruleMessage (rule : PyDict) (i : Nat) : String :=
  match pyDictGet rule "raise" with
  | some v => pyStrVal v
  | Option.none => "Validation rule " ++ toString i ++ " failed"

/-- `PROFILE_CHECK_ENABLED` defaults to unset, hence false. -/
def profile_check_enabled : Bool := false

/-- The fallback rules `enforce_profile` substitutes for an empty list when
the profile check flag is on. -/
def fallbackRules : List PyDict :=
  [[("if", Val.str "resolution.dx == None"), ("raise", Val.str "Missing dx in resolution")],
   [("if", Val.str "bounding_box == None"), ("raise", Val.str "Missing bounding_box definition")]]

/-- The enforcement loop: rules with a falsy condition are skipped; a
`RuleEvaluationError` from evaluation is wrapped with the rule's index and
message (other exceptions propagate raw); a rule that evaluates True raises
`[Rule i] message` at once. -/
def enforceAux (payload : PyDict) : Nat → List PyDict → Except PyExc Unit
  | _, [] => Except.ok ()
  | i, rule :: rest =>
      let condition := pyDictGet rule "if"
      let message := ruleMessage rule i
      if pyTruthyOpt condition then
        match evaluate_rule rule payload false false with
        | Except.error (PyExc.ruleEvaluationError m) =>
            Except.error (PyExc.validationProfileError
              ("[Rule " ++ toString i ++ "] " ++ message ++
               " — Evaluation error for '" ++
               (match condition with
                | some c => pyStrVal c
                | Option.none => "None") ++ "': " ++ m))
        | Except.error e => Except.error e
        | Except.ok true =>
            Except.error (PyExc.validationProfileError
              ("[Rule " ++ toString i ++ "] " ++ message))
        | Except.ok false => enforceAux payload (i + 1) rest
      else enforceAux payload (i + 1) rest

/-- `enforce_profile(rules, payload)` on an already-materialized rule list
(the file-path branch performs I/O and is out of scope): the empty-list
fallback, then the indexed loop. -/
def enforce_profile (rules : List PyDict) (payload : PyDict) : Except PyExc Unit :=
  let rules := if rules.isEmpty && profile_check_enabled then fallbackRules else rules
  enforceAux payload 0 rules

example : evaluate_rule [("if", Val.str "a.b == 100")]
    [("a", Val.dict [("b", Val.str "100")])] true false =
    Except.error (PyExc.ruleEvaluationError
      "Coercion error: Incompatible types: <class 'str'> vs <class 'int'>") := by rfl
example : evaluate_rule [("if", Val.str "a.b == 100")]
    [("a", Val.dict [("b", Val.str "100")])] false true = Except.ok true := by rfl
example : evaluate_rule [("if", Val.str "a == 1"), ("raise", Val.str "r0")]
    [("a", Val.int 2)] false false = Except.ok false := by rfl
example : enforce_profile [[("if", Val.int 5)]] [] =
    Except.error (PyExc.validationProfileError "[Rule 0] Validation rule 0 failed") := by rfl
example : enforce_profile
    [[("if", Val.str "domain.nx == 0"), ("raise", Val.str "nx must be nonzero")]]
    [("domain", Val.dict [("nx", Val.int 0)])] =
    Except.error (PyExc.validationProfileError "[Rule 0] nx must be nonzero") := by rfl
example : enforce_profile
    [[("if", Val.str "domain.nx == 0"), ("raise", Val.str "nx must be nonzero")]]
    [("domain", Val.dict [("nx", Val.int 5)])] = Except.ok () := by rfl
example : evalCore "a" "==" "²" [("a", Val.int 5), ("²", Val.str "5")] false true =
    Except.ok true := by rfl
example : evalCore "a" "==" "²" [("a", Val.int 5), ("²", Val.str "5")] true false =
    Except.error (PyExc.ruleEvaluationError "Invalid RHS literal: '²'") := by rfl
example : evaluate_expression "x  == 1" [("x", Val.int 1)] false false =
    Except.error (PyExc.ruleEvaluationError "Unsupported expression format: 'x  == 1'") := by rfl

/-! ### Auxiliary definitions for the claims -/

/-- Tokenization of a string into whitespace-separated tokens, as the claim
about the expression splitter words it (Python `s.split()` with no argument:
runs of whitespace separate, empty tokens are discarded).  This definition
follows the claim's words, to be compared with the evaluator's actual
single-space `split(" ", 3)`. -/
def wsSplitAux : List Char → List Char → List (List Char)
  | cur, [] => [cur.reverse]
  | cur, c :: cs =>
      if pyWhitespaceChar c then cur.reverse :: wsSplitAux [] cs
      else wsSplitAux (c :: cur) cs

/-- The whitespace-separated tokens of a string (see `wsSplitAux`). -/
def specWhitespaceTokens (s : String) : List String :=
  ((wsSplitAux [] s.toList).filter (fun l => !l.isEmpty)).map String.mk

/-- Whether the rule's condition value is empty or not a string — the guard
class of `evaluate_rule`'s first check. -/
def condEmptyOrNonString : Option Val → Bool
  | some (Val.str s) => s.isEmpty
  | some _ => true
  | Option.none => true

/-- A value that is a number (int or float, not bool) with nonzero truth
value, the class of right operands in the implicit claim about
`relaxed_equals`. -/
def isNonzeroNumber : Val → Bool
  | Val.int n => n != 0
  | Val.float (Flt.fin q) => !q.isZero
  | Val.float _ => true
  | _ => false

/-- Membership in the operator registry gives both a positive `contains`
check and a successful resolution. -/
theorem resolve_ok_of_mem {o : String} (h : o ∈ supportedKeys) :
    supportedKeys.contains o = true ∧ ∃ f, resolve_operator o = Except.ok f := by
  fin_cases h <;> exact ⟨rfl, _, rfl⟩

/-- Rules that are skipped or evaluate to False advance the enforcement loop
past them, moving the index by their number. -/
theorem enforceAux_append (payload : PyDict) (pre rest : List PyDict) (i : Nat)
    (h : ∀ r ∈ pre, pyTruthyOpt (pyDictGet r "if") = false ∨
        evaluate_rule r payload false false = Except.ok false) :
    enforceAux payload i (pre ++ rest) = enforceAux payload (i + pre.length) rest := by
  induction pre generalizing i with
  | nil => simp
  | cons r pre ih =>
      have hr := h r (List.mem_cons_self r pre)
      have hpre : ∀ r' ∈ pre, pyTruthyOpt (pyDictGet r' "if") = false ∨
          evaluate_rule r' payload false false = Except.ok false :=
        fun r' hm => h r' (List.mem_cons_of_mem r hm)
      have step : enforceAux payload i ((r :: pre) ++ rest) =
          enforceAux payload (i + 1) (pre ++ rest) := by
        rw [List.cons_append]
        rcases hr with hskip | hfalse
        · simp only [enforceAux]
          rw [hskip]
          simp
        · rcases Bool.eq_false_or_eq_true (pyTruthyOpt (pyDictGet r "if")) with hc | hc <;>
          · simp only [enforceAux]
            rw [hc]
            try rw [hfalse]
            simp
      rw [step, ih _ hpre]
      congr 1
      simp only [List.length_cons]
      omega

/-! ### The claims -/

/-- C1: for every ordered rule list and payload, `enforce_profile` evaluates
rules in order; at the first rule with a truthy condition whose evaluation
returns True — all earlier rules being skipped or evaluating False — it
raises the profile error `[Rule i] message` for that rule, whatever rules
follow (the universally quantified tail is never evaluated). -/
theorem c1_enforce_first_trigger (payload : PyDict) (pre rest : List PyDict) (r : PyDict)
    (hpre : ∀ r' ∈ pre, pyTruthyOpt (pyDictGet r' "if") = false ∨
        evaluate_rule r' payload false false = Except.ok false)
    (hcond : pyTruthyOpt (pyDictGet r "if") = true)
    (htrig : evaluate_rule r payload false false = Except.ok true) :
    enforce_profile (pre ++ r :: rest) payload =
      Except.error (PyExc.validationProfileError
        ("[Rule " ++ toString pre.length ++ "] " ++ ruleMessage r pre.length)) := by
  unfold enforce_profile
  have hne : ((pre ++ r :: rest).isEmpty && profile_check_enabled) = false := by
    simp [profile_check_enabled]
  rw [hne]
  simp only [Bool.false_eq_true, if_false]
  rw [enforceAux_append payload pre (r :: rest) 0 hpre]
  simp only [Nat.zero_add]
  simp only [enforceAux]
  rw [hcond, htrig]
  simp

/-- Concrete instance for C1: with the first rule evaluating False and the
second and third both triggering, only the second rule's message is raised. -/
theorem c1_witness :
    enforce_profile
      [[("if", Val.str "a == 1"), ("raise", Val.str "zero")],
       [("if", Val.str "a == 2"), ("raise", Val.str "boom")],
       [("if", Val.str "a == 2"), ("raise", Val.str "late")]]
      [("a", Val.int 2)] =
      Except.error (PyExc.validationProfileError "[Rule 1] boom") := by
  have h := c1_enforce_first_trigger [("a", Val.int 2)]
      [[("if", Val.str "a == 1"), ("raise", Val.str "zero")]]
      [[("if", Val.str "a == 2"), ("raise", Val.str "late")]]
      [("if", Val.str "a == 2"), ("raise", Val.str "boom")]
      (by intro r' hm
          rw [List.mem_singleton] at hm
          subst hm
          exact Or.inr rfl)
      rfl rfl
  exact h

/-- C2 counterexample: a rule whose condition is the non-string, truthy value
`5` — `evaluate_rule` returns True for it, and `enforce_profile` therefore
does raise that rule's message, contradicting the claim that such a rule can
never trigger a violation. -/
theorem c2_counterexample :
    evaluate_rule [("if", Val.int 5)] [] false false = Except.ok true ∧
    enforce_profile [[("if", Val.int 5)]] [] =
      Except.error (PyExc.validationProfileError "[Rule 0] Validation rule 0 failed") :=
  ⟨rfl, rfl⟩

/-- C2 amended: a rule with an empty or non-string condition makes
`evaluate_rule` return True; `enforce_profile` skips — and so never raises
the message of — exactly the rules whose condition is falsy (missing, empty,
or otherwise falsy), while a truthy non-string condition does trigger. -/
theorem c2_amended (rule : PyDict) (payload : PyDict) (strict relaxed : Bool)
    (h : condEmptyOrNonString (pyDictGet rule "if") = true) :
    evaluate_rule rule payload strict relaxed = Except.ok true ∧
    ∀ i rest, pyTruthyOpt (pyDictGet rule "if") = false →
      enforceAux payload i (rule :: rest) = enforceAux payload (i + 1) rest := by
  constructor
  · unfold evaluate_rule
    rcases hm : pyDictGet rule "if" with _ | v
    · rfl
    · cases v <;> simp_all [condEmptyOrNonString]
  · intro i rest hf
    simp only [enforceAux]
    rw [hf]
    simp

/-- Concrete instance for C2 amended: the empty-string condition yields True
from `evaluate_rule`, and the enforcement loop skips the rule. -/
theorem c2_witness :
    evaluate_rule [("if", Val.str "")] [] false false = Except.ok true ∧
    enforceAux [] 0 [[("if", Val.str "")]] = enforceAux [] 1 [] := by
  have h := c2_amended [("if", Val.str "")] [] false false rfl
  exact ⟨h.1, h.2 0 [] rfl⟩

/-- C3: off the literal-only fast path and for every supported operator, the
relaxed-mode result of the evaluator body is `relaxed_equals` applied to the
operands present at the final comparison, on each of the three ways that
comparison is reached: the unresolved-or-symbolic shortcut and the
resolved-from-payload case compare the resolved operands, and the remaining
case compares the coerced operands — the requested operator never enters the
result.  In strict mode and in default mode (both flags false), when every
stage succeeds and the operand types agree, the result is instead the
resolved comparison function applied to the operands (wrapped as the source
wraps a comparison failure). -/
theorem c3_final_comparison (lhs_path rhs_literal : String) (payload : PyDict)
    (o : String) (hmem : o ∈ supportedKeys)
    (hfp : (payload.isEmpty && (is_literal lhs_path && is_literal rhs_literal)) = false) :
    (∀ lv rv flag,
      (get_nested_value payload lhs_path = Except.ok lv ∨
        (∃ m, get_nested_value payload lhs_path =
            Except.error (PyExc.ruleEvaluationError m)) ∧ lv = Val.none) →
      resolveRhs true payload rhs_literal = Except.ok (rv, flag) →
      ((lv.isNone || rv.isNone ||
          is_symbolic_reference lhs_path || is_symbolic_reference rhs_literal) = true →
        evalCore lhs_path o rhs_literal payload false true =
          Except.ok (relaxed_equals lv rv)) ∧
      ((lv.isNone || rv.isNone ||
          is_symbolic_reference lhs_path || is_symbolic_reference rhs_literal) = false →
        flag = true →
        evalCore lhs_path o rhs_literal payload false true =
          Except.ok (relaxed_equals lv rv)) ∧
      (∀ lv2 rv2,
        (lv.isNone || rv.isNone ||
          is_symbolic_reference lhs_path || is_symbolic_reference rhs_literal) = false →
        flag = false →
        coerce_types_for_comparison lv rv = Except.ok (lv2, rv2) →
        evalCore lhs_path o rhs_literal payload false true =
          Except.ok (relaxed_equals lv2 rv2))) ∧
    (∀ strict lv rv f,
      get_nested_value payload lhs_path = Except.ok lv →
      parse_literal (Val.str rhs_literal) = Except.ok rv →
      resolve_operator o = Except.ok f →
      typeTag lv = typeTag rv →
      evalCore lhs_path o rhs_literal payload strict false =
        wrapCompare (applyOp f lv rv)) := by
  obtain ⟨hc, f1, hf1⟩ := resolve_ok_of_mem hmem
  constructor
  · intro lv rv flag hlv hrhs
    refine ⟨?_, ?_, ?_⟩
    · intro hsc
      unfold evalCore
      rw [hc, hfp, hf1, hrhs]
      rcases hlv with hlv | ⟨⟨m, hm⟩, rfl⟩
      · rw [hlv]
        simp [hsc]
      · rw [hm]
        simp [hsc]
    · intro hsc hflag
      subst hflag
      unfold evalCore
      rw [hc, hfp, hf1, hrhs]
      rcases hlv with hlv | ⟨⟨m, hm⟩, rfl⟩
      · rw [hlv]
        simp [hsc]
      · rw [hm]
        simp [hsc]
    · intro lv2 rv2 hsc hflag hco
      subst hflag
      unfold evalCore
      rw [hc, hfp, hf1, hrhs]
      rcases hlv with hlv | ⟨⟨m, hm⟩, rfl⟩
      · rw [hlv]
        simp [hsc, hco]
      · rw [hm]
        simp [hsc, hco]
  · intro strict lv rv f hlv hrv hf htt
    unfold evalCore
    rw [hc, hfp, hlv, hf]
    unfold resolveRhs
    rw [hrv]
    have hbne : (typeTag lv != typeTag rv) = false := by
      simp [htt]
    cases strict <;> simp [hbne]

/-- Concrete instance for C3, exercising all branches: the relaxed result on
the symbolic-lhs shortcut, on the resolved-from-payload case, and on the
coercion case is `relaxed_equals` of the operands even for the ordering,
regex and membership operators; and both explicit strict mode and default
mode apply the equality function. -/
theorem c3_witness :
    evalCore "a.b" "<" "100" [("a", Val.dict [("b", Val.str "100")])] false true =
      Except.ok (relaxed_equals (Val.str "100") (Val.int 100)) ∧
    evalCore "a" "matches" "²" [("a", Val.int 5), ("²", Val.str "5")] false true =
      Except.ok (relaxed_equals (Val.int 5) (Val.str "5")) ∧
    evalCore "a" "in" "7" [("a", Val.int 5)] false true =
      Except.ok (relaxed_equals (Val.int 5) (Val.int 7)) ∧
    evalCore "a" "==" "1" [("a", Val.int 1)] true false = Except.ok true ∧
    evalCore "a" "==" "1" [("a", Val.int 1)] false false = Except.ok true := by
  refine ⟨?_, ?_, ?_, ?_, ?_⟩
  · exact ((c3_final_comparison "a.b" "100" [("a", Val.dict [("b", Val.str "100")])] "<"
      (by decide) rfl).1 (Val.str "100") (Val.int 100) false (Or.inl rfl) rfl).1 rfl
  · exact (((c3_final_comparison "a" "²" [("a", Val.int 5), ("²", Val.str "5")] "matches"
      (by decide) rfl).1 (Val.int 5) (Val.str "5") true (Or.inl rfl) rfl).2.1 rfl rfl)
  · exact (((c3_final_comparison "a" "7" [("a", Val.int 5)] "in"
      (by decide) rfl).1 (Val.int 5) (Val.int 7) false (Or.inl rfl) rfl).2.2
      (Val.int 5) (Val.int 7) rfl rfl rfl)
  · exact ((c3_final_comparison "a" "1" [("a", Val.int 1)] "=="
      (by decide) rfl).2 true (Val.int 1) (Val.int 1) Op.eq rfl rfl rfl rfl).trans rfl
  · exact ((c3_final_comparison "a" "1" [("a", Val.int 1)] "=="
      (by decide) rfl).2 false (Val.int 1) (Val.int 1) Op.eq rfl rfl rfl rfl).trans rfl

/-- C4: on the rule `a.b == 100` against payload `{a: {b: "100"}}`, strict
mode raises the incompatible-types evaluation error (wrapped by the
coercion-stage handler, as the source wraps it) and relaxed mode returns
True. -/
theorem c4_strict_incompatible_relaxed_true :
    evaluate_rule [("if", Val.str "a.b == 100")]
      [("a", Val.dict [("b", Val.str "100")])] true false =
      Except.error (PyExc.ruleEvaluationError
        "Coercion error: Incompatible types: <class 'str'> vs <class 'int'>") ∧
    evaluate_rule [("if", Val.str "a.b == 100")]
      [("a", Val.dict [("b", Val.str "100")])] false true = Except.ok true :=
  ⟨rfl, rfl⟩

/-- C5: on the expression `a == ²` with payload `{a: 5, ²: "5"}`, literal
parsing of the rhs token fails (`"²".isdigit()` holds but `int` rejects it);
the relaxed evaluator then resolves the rhs from the payload with the
resolved-from-payload flag set (so the later string coercion is skipped and
the run completes), while the strict evaluator turns the same parse failure
into the hard `Invalid RHS literal` error. -/
theorem c5_rhs_parse_failure_fallback :
    parse_literal (Val.str "²") =
      Except.error (PyExc.valueError "invalid literal for int() with base 10: '²'") ∧
    resolveRhs true [("a", Val.int 5), ("²", Val.str "5")] "²" =
      Except.ok (Val.str "5", true) ∧
    resolveRhs false [("a", Val.int 5), ("²", Val.str "5")] "²" =
      Except.error (PyExc.ruleEvaluationError "Invalid RHS literal: '²'") ∧
    evalCore "a" "==" "²" [("a", Val.int 5), ("²", Val.str "5")] false true =
      Except.ok true ∧
    evalCore "a" "==" "²" [("a", Val.int 5), ("²", Val.str "5")] true false =
      Except.error (PyExc.ruleEvaluationError "Invalid RHS literal: '²'") :=
  ⟨rfl, rfl, rfl, rfl, rfl⟩

/-- C6: `parse_literal` is not total — on the superscript-digit string `²`
the digit check passes but the integer conversion raises, so the function
raises a `ValueError` instead of returning a value. -/
theorem c6_parse_literal_not_total :
    pyIsDigitStr "²" = true ∧ pyIntOfString "²" = Option.none ∧
    parse_literal (Val.str "²") =
      Except.error (PyExc.valueError "invalid literal for int() with base 10: '²'") :=
  ⟨rfl, rfl, rfl⟩

/-- C7 counterexample: for the alias `++` (canonical token `+`), both
resolutions fail, but with different operator errors — the error names the
original token — so `resolve_operator "++"` and `resolve_operator "+"` are
not the same result. -/
theorem c7_counterexample : resolve_operator "++" ≠ resolve_operator "+" := by
  intro h
  have h1 : resolve_operator "++" = Except.error (PyExc.operatorError
      "Unsupported comparison operator: '++' → normalized as '+'") := rfl
  have h2 : resolve_operator "+" = Except.error (PyExc.operatorError
      "Unsupported comparison operator: '+' → normalized as '+'") := rfl
  rw [h1, h2] at h
  injection h with h3
  injection h3 with h4
  exact absurd h4 (by decide)

/-- C7 amended: for the six aliases whose canonical token is a supported
operator, resolution of the alias equals resolution of the canonical token;
for `++`, `--` and `%%` both the alias and its canonical token fail with an
operator error, but the two errors name different original tokens. -/
theorem c7_alias_resolution :
    (resolve_operator "===" = resolve_operator "==" ∧
     resolve_operator "!==" = resolve_operator "!=" ∧
     resolve_operator ">>" = resolve_operator ">" ∧
     resolve_operator "<<" = resolve_operator "<" ∧
     resolve_operator ">==" = resolve_operator ">=" ∧
     resolve_operator "<==" = resolve_operator "<=") ∧
    (resolve_operator "++" = Except.error (PyExc.operatorError
        "Unsupported comparison operator: '++' → normalized as '+'") ∧
     resolve_operator "+" = Except.error (PyExc.operatorError
        "Unsupported comparison operator: '+' → normalized as '+'") ∧
     resolve_operator "--" = Except.error (PyExc.operatorError
        "Unsupported comparison operator: '--' → normalized as '-'") ∧
     resolve_operator "-" = Except.error (PyExc.operatorError
        "Unsupported comparison operator: '-' → normalized as '-'") ∧
     resolve_operator "%%" = Except.error (PyExc.operatorError
        "Unsupported comparison operator: '%%' → normalized as '%'") ∧
     resolve_operator "%" = Except.error (PyExc.operatorError
        "Unsupported comparison operator: '%' → normalized as '%'")) :=
  ⟨⟨rfl, rfl, rfl, rfl, rfl, rfl⟩, rfl, rfl, rfl, rfl, rfl, rfl⟩

/-- C8 counterexample: the expression `x  == 1` (two spaces) consists of
exactly three whitespace-separated tokens, yet the evaluator raises the
format error — the source splits on single spaces with maxsplit 3, so the
run of spaces produces an empty fourth part. -/
theorem c8_counterexample :
    specWhitespaceTokens "x  == 1" = ["x", "==", "1"] ∧
    evaluate_expression "x  == 1" [("x", Val.int 1)] false false =
      Except.error (PyExc.ruleEvaluationError "Unsupported expression format: 'x  == 1'") :=
  ⟨rfl, rfl⟩

/-- C8 amended: the evaluator splits the stripped expression on single space
characters with maxsplit 3; whenever that split has other than exactly three
parts it fails with the format error before any resolution, and with exactly
three parts it proceeds with them as lhs, operator and rhs. -/
theorem c8_three_token_split (e : String) (payload : PyDict) (strict relaxed : Bool) :
    ((pySplit (pyStrip e) ' ' 3).length ≠ 3 →
      evaluate_expression e payload strict relaxed =
        Except.error (PyExc.ruleEvaluationError
          ("Unsupported expression format: '" ++ e ++ "'"))) ∧
    (∀ l o r, pySplit (pyStrip e) ' ' 3 = [l, o, r] →
      evaluate_expression e payload strict relaxed = evalCore l o r payload strict relaxed) := by
  constructor
  · intro hne
    unfold evaluate_expression
    rcases hp : pySplit (pyStrip e) ' ' 3 with _ | ⟨a, _ | ⟨b, _ | ⟨c, _ | ⟨d, t⟩⟩⟩⟩
    · rfl
    · rfl
    · rfl
    · exact absurd (by rw [hp]; rfl) hne
    · rfl
  · intro l o r hp
    unfold evaluate_expression
    rw [hp]

/-- Concrete instance for C8 amended: a two-token expression fails with the
format error. -/
theorem c8_witness :
    evaluate_expression "x ==" [] false false =
      Except.error (PyExc.ruleEvaluationError "Unsupported expression format: 'x =='") :=
  (c8_three_token_split "x ==" [] false false).1 (by decide)

/-- C9: `relaxed_equals` returns False whenever either operand is a string
reading "nan" or "not_a_number" up to case and surrounding whitespace, and
in particular `relaxed_equals("nan", x)` and `relaxed_equals(x, "nan")` are
False for every value x. -/
theorem c9_nan_rejection :
    (∀ x y : Val, nanString x = true ∨ nanString y = true →
      relaxed_equals x y = false) ∧
    (∀ x : Val, relaxed_equals (Val.str "nan") x = false ∧
      relaxed_equals x (Val.str "nan") = false) := by
  have main : ∀ x y : Val, nanString x = true ∨ nanString y = true →
      relaxed_equals x y = false := by
    intro x y h
    unfold relaxed_equals
    rcases h with h | h <;> rw [h] <;> simp
  exact ⟨main, fun x => ⟨main _ _ (Or.inl rfl), main _ _ (Or.inr rfl)⟩⟩

/-- Concrete instance for C9: a padded mixed-case NaN string compares False
against a number. -/
theorem c9_witness : relaxed_equals (Val.str " NaN ") (Val.int 3) = false :=
  c9_nan_rejection.1 (Val.str " NaN ") (Val.int 3) (Or.inl rfl)

/-- C10: for every non-empty string whose stripped lowercase form is none of
"false", "0", "nan", "not_a_number", and every nonzero number, the first
casting round of `relaxed_equals` maps both operands to boolean True, so the
comparison succeeds: such strings are relaxed-equal to all nonzero numbers. -/
theorem c10_nonempty_string_equals_nonzero_number (s : String) (v : Val)
    (h1 : s.isEmpty = false)
    (h2 : pyLower (pyStrip s) ∉ (["false", "0", "nan", "not_a_number"] : List String))
    (h3 : isNonzeroNumber v = true) :
    relaxed_equals (Val.str s) v = true := by
  simp only [List.mem_cons, List.mem_singleton, not_or] at h2
  obtain ⟨hf, h0, hn, hm⟩ := h2
  have hnanL : nanString (Val.str s) = false := by
    unfold nanString
    simp [hn, hm]
  have hnanR : nanString v = false := by
    cases v <;> simp_all [isNonzeroNumber, nanString]
  have hl : relaxed_cast (Val.str s) TTy.boolT = some (Val.bool true) := by
    unfold relaxed_cast
    simp only [isinstanceT]
    have hs : pyTruthy (Val.str s) = true := by simp [pyTruthy, h1]
    rcases hb : (pyLower (pyStrip s) == "true" || pyLower (pyStrip s) == "1") with _ | _
    · have hb2 : (pyLower (pyStrip s) == "false" || pyLower (pyStrip s) == "0") = false := by
        simp [hf, h0]
      simp [hb, hb2, ctorFallback, hs]
    · simp [hb]
  have hr : relaxed_cast v TTy.boolT = some (Val.bool true) := by
    cases v with
    | none => simp [isNonzeroNumber] at h3
    | bool b => simp [isNonzeroNumber] at h3
    | int n => simp_all [relaxed_cast, isinstanceT, ctorFallback, pyTruthy, isNonzeroNumber]
    | float f =>
        cases f <;> simp_all [relaxed_cast, isinstanceT, ctorFallback, pyTruthy, isNonzeroNumber]
    | str t => simp [isNonzeroNumber] at h3
    | list xs => simp [isNonzeroNumber] at h3
    | dict es => simp [isNonzeroNumber] at h3
  unfold relaxed_equals
  rw [hnanL, hnanR]
  simp only [Bool.or_self, Bool.false_eq_true, if_false, List.any_cons, List.any_nil,
    hl, hr, Bool.or_eq_true]
  exact Or.inl rfl

/-- Concrete instance for C10: `relaxed_equals("abc", 5)` is True. -/
theorem c10_witness : relaxed_equals (Val.str "abc") (Val.int 5) = true :=
  c10_nonempty_string_equals_nonzero_number "abc" (Val.int 5) rfl (by decide) rfl
